import Mathlib

/-! # Governance CLI transaction commands (`client/gov/cli/sendtx.go`)

A shallow embedding of the three command bodies `GetCmdSubmitProposal`,
`GetCmdDeposit`, `GetCmdVote` and of the parameter resolver
`GetParamFromString`.

Every call that leaves the file (viper, the CLI context, the JSON codecs, the
file system, the `gov` constructors and checks, the transaction utilities) is a
field of an environment record `Env`; the command bodies are ordinary functions
of that record and of the flag values.  Each function returns its Go result
together with the list of observable calls it made, in program order.
-/

namespace Irishub

/-! ## Data model -/

/-- A Go `error` value, identified with the text of its `Error()` method. -/
abbrev Error := String

/-- The type `sdk.AccAddress`. -/
abbrev AccAddress := String

/-- The type `sdk.Coin`. -/
structure Coin where
  Denom : String
  Amount : Int
deriving DecidableEq, Repr

/-- The type `sdk.Coins`. -/
abbrev Coins := List Coin

/-- Modelled from the spec: `gov.ProposalKind`, whose declaration lives in
`modules/gov`; the spec gives it as the closed enumeration `Text`,
`ParameterChange`, `SoftwareUpgrade`. -/
inductive ProposalKind where
  | Text
  | ParameterChange
  | SoftwareUpgrade
deriving DecidableEq, Repr

/-- Modelled from the spec: `gov.VoteOption`, whose declaration lives in
`modules/gov`; the spec gives it as the closed enumeration `Yes`, `No`,
`NoWithVeto`, `Abstain`. -/
inductive VoteOption where
  | Yes
  | No
  | NoWithVeto
  | Abstain
deriving DecidableEq, Repr

/-- Modelled from the spec: `gov.Param`, whose declaration lives in
`modules/gov`: the three string fields `Key`, `Value`, `Op` that
`GetParamFromString` assigns. -/
structure Param where
  Key : String
  Value : String
  Op : String
deriving DecidableEq, Repr

/-- The Go zero value of `gov.Param` (`var param gov.Param`). -/
def Param.zero : Param := ⟨"", "", ""⟩

/-- The part of `ParameterDoc.Govparams` that the resolver reads.  The type of
the deposit procedure record is declared outside this file and is a parameter. -/
structure GovParams (DP : Type) where
  DepositProcedure : DP

/-- The snapshot document `ParameterDoc`, as far as the resolver reads it. -/
structure ParameterDoc (DP : Type) where
  Govparams : GovParams DP

/-- Modelled from the spec: `gov.MsgSubmitProposal` (`SubmitProposalRequest`),
with the six components passed to `gov.NewMsgSubmitProposal`. -/
structure MsgSubmitProposal where
  Title : String
  Description : String
  ProposalType : ProposalKind
  Proposer : AccAddress
  InitialDeposit : Coins
  Param : Param
deriving DecidableEq, Repr

/-- Modelled from the spec: `gov.MsgDeposit` (`DepositRequest`). -/
structure MsgDeposit where
  Depositer : AccAddress
  ProposalID : Int
  Amount : Coins
deriving DecidableEq, Repr

/-- Modelled from the spec: `gov.MsgVote` (`VoteRequest`). -/
structure MsgVote where
  Voter : AccAddress
  ProposalID : Int
  Option : VoteOption
deriving DecidableEq, Repr

/-- The interface `sdk.Msg`, restricted to the three messages built here. -/
inductive Msg where
  | submitProposal (m : MsgSubmitProposal)
  | deposit (m : MsgDeposit)
  | vote (m : MsgVote)
deriving DecidableEq, Repr

/-- Modelled from the spec: `gov.NewMsgSubmitProposal`, pure assembly of its
six arguments. -/
def NewMsgSubmitProposal (title description : String) (proposalType : ProposalKind)
    (proposer : AccAddress) (initialDeposit : Coins) (param : Param) : MsgSubmitProposal :=
  ⟨title, description, proposalType, proposer, initialDeposit, param⟩

/-- Modelled from the spec: `gov.NewMsgDeposit`, pure assembly. -/
def NewMsgDeposit (depositer : AccAddress) (proposalID : Int) (amount : Coins) : MsgDeposit :=
  ⟨depositer, proposalID, amount⟩

/-- Modelled from the spec: `gov.NewMsgVote`, pure assembly. -/
def NewMsgVote (voter : AccAddress) (proposalID : Int) (option : VoteOption) : MsgVote :=
  ⟨voter, proposalID, option⟩

/-! ## Observable calls -/

/-- One observable call made by a command body. -/
inductive Event where
  /-- The call `fmt.Println(args...)`. -/
  | println (args : List String)
  /-- The `fmt.Printf("Vote[Voter:%s,ProposalID:%d,Option:%s]", ...)` of the vote command. -/
  | printfVote (voter : AccAddress) (proposalID : Int) (option : VoteOption)
  /-- The call `cmn.ReadFile(path)`. -/
  | readFile (path : String)
  /-- The call `GetParamFromString(paramStr, pathStr, keyStr, opStr, cdc)`. -/
  | getParamFromString (paramStr pathStr keyStr opStr : String)
  /-- A message constructor `gov.NewMsg...` returned `m`. -/
  | newMsg (m : Msg)
  /-- The call `m.ValidateBasic()`. -/
  | validateBasic (m : Msg)
  /-- The call `utils.PrintUnsignedStdTx(txCtx, cliCtx, msgs)`. -/
  | printUnsignedStdTx (msgs : List Msg)
  /-- The call `utils.SendOrPrintTx(txCtx, cliCtx, msgs)`, with the value of
  `cliCtx.PrintResponse` at the call. -/
  | sendOrPrintTx (printResponse : Bool) (msgs : List Msg)
deriving DecidableEq, Repr

/-- The event hands messages to the signer/broadcaster. -/
def Event.isSubmit : Event → Bool
  | .printUnsignedStdTx _ => true
  | .sendOrPrintTx _ _ => true
  | _ => false

/-- The event reads a file. -/
def Event.isReadFile : Event → Bool
  | .readFile _ => true
  | _ => false

/-- The event is a message construction. -/
def Event.isNewMsg : Event → Bool
  | .newMsg _ => true
  | _ => false

/-- The event is a call of the parameter resolver. -/
def Event.isGetParamFromString : Event → Bool
  | .getParamFromString _ _ _ _ => true
  | _ => false

/-! ## Collaborators -/

/-- The values viper holds for the flags the commands read (`viper.GetString`
of each flag constant), and `cliCtx.GenerateOnly`. -/
structure Flags where
  flagTitle : String
  flagDescription : String
  flagProposalType : String
  flagDeposit : String
  flagParam : String
  flagPath : String
  flagKey : String
  flagOp : String
  flagProposalID : String
  flagOption : String
  GenerateOnly : Bool

/-- The collaborators called by the file.  `DP` is the type of
`ParameterDoc.Govparams.DepositProcedure`. -/
structure Env (DP : Type) where
  /-- `cliCtx.GetFromAddress()`. -/
  GetFromAddress : Except Error AccAddress
  /-- `cliCtx.ParseCoins(s)`. -/
  ParseCoins : String → Except Error Coins
  /-- `gov.ProposalTypeFromString(s)`. -/
  ProposalTypeFromString : String → Except Error ProposalKind
  /-- `gov.VoteOptionFromString(s)`. -/
  VoteOptionFromString : String → Except Error VoteOption
  /-- `viper.GetInt64` applied to a flag whose stored value is the given text;
  it has no error result. -/
  GetInt64 : String → Int
  /-- `json.Unmarshal([]byte(s), &param)`: the contents of `param` after the
  call (starting from the given contents) and the returned error. -/
  jsonUnmarshal : String → Param → Param × Option Error
  /-- `os.ExpandEnv(s)`. -/
  ExpandEnv : String → String
  /-- `path.Join(elems...)`. -/
  pathJoin : List String → String
  /-- `cmn.ReadFile(path)`. -/
  ReadFile : String → Except Error String
  /-- `cdc.UnmarshalJSON(bytes, &paramDoc)` into a fresh `ParameterDoc{}`. -/
  cdcUnmarshalJSON : String → Except Error (ParameterDoc DP)
  /-- `json.Marshal(v)` of a deposit procedure record: bytes and error. -/
  jsonMarshal : DP → String × Option Error
  /-- `json.MarshalIndent(param, prefix, indent)`: bytes and error. -/
  jsonMarshalIndent : Param → String → String → String × Option Error
  /-- `m.ValidateBasic()`, `none` for a nil error. -/
  ValidateBasic : Msg → Option Error
  /-- `utils.PrintUnsignedStdTx(txCtx, cliCtx, msgs)`, `none` for a nil error. -/
  PrintUnsignedStdTx : List Msg → Option Error
  /-- `utils.SendOrPrintTx(txCtx, cliCtx, msgs)` with the given
  `cliCtx.PrintResponse`, `none` for a nil error. -/
  SendOrPrintTx : Bool → List Msg → Option Error

/-! ## The parameter resolver -/

/-- The snapshot path `path.Join(os.ExpandEnv("$HOME"), pathStr, "config/params.json")`. -/
def snapshotPath {DP : Type} (env : Env DP) (pathStr : String) : String :=
  env.pathJoin [env.ExpandEnv "$HOME", pathStr, "config/params.json"]

/-- The function `GetParamFromString`: the returned `(gov.Param, error)` and the calls made. -/
def GetParamFromString {DP : Type} (env : Env DP) (paramStr pathStr keyStr opStr : String) :
    (Param × Option Error) × List Event :=
  let param : Param := Param.zero
  if paramStr ≠ "" then
    match env.jsonUnmarshal paramStr param with
    | (param, some err) =>
      -- `err != nil`: print it, `return param, nil`
      ((param, none), [Event.println [err]])
    | (param, none) =>
      -- `return param, err` with `err == nil`
      ((param, none), [])
  else
    let pathStr := snapshotPath env pathStr
    match env.ReadFile pathStr with
    | .error err =>
      ((param, some err),
        [Event.readFile pathStr, Event.println ["Open ", pathStr], Event.println [err]])
    | .ok jsonBytes =>
      match env.cdcUnmarshalJSON jsonBytes with
      | .error err =>
        ((param, some err),
          [Event.readFile pathStr, Event.println ["Open ", pathStr], Event.println [err]])
      | .ok paramDoc =>
        let valueStr : String :=
          if keyStr = "Gov/gov/depositProcedure" then
            (env.jsonMarshal paramDoc.Govparams.DepositProcedure).1
          else ""
        let param : Param := ⟨keyStr, valueStr, opStr⟩
        let jsonBytes := (env.jsonMarshalIndent param "" " ").1
        ((param, none),
          [Event.readFile pathStr, Event.println ["Open ", pathStr],
            Event.println ["Param:\n", jsonBytes]])

/-! ## The three commands -/

/-- The `RunE` body of `GetCmdSubmitProposal`: the returned error (`none` for
nil) and the calls made. -/
def GetCmdSubmitProposal {DP : Type} (env : Env DP) (viper : Flags) :
    Option Error × List Event :=
  let title := viper.flagTitle
  let description := viper.flagDescription
  let strProposalType := viper.flagProposalType
  let initialDeposit := viper.flagDeposit
  let paramStr := viper.flagParam
  match env.GetFromAddress with
  | .error err => (some err, [])
  | .ok fromAddr =>
    match env.ParseCoins initialDeposit with
    | .error err => (some err, [])
    | .ok amount =>
      match env.ProposalTypeFromString strProposalType with
      | .error err => (some err, [])
      | .ok proposalType =>
        -- `var param gov.Param`, assigned only for a parameter change
        let resolved : (Param × Option Error) × List Event :=
          if proposalType = ProposalKind.ParameterChange then
            let pathStr := viper.flagPath
            let keyStr := viper.flagKey
            let opStr := viper.flagOp
            let r := GetParamFromString env paramStr pathStr keyStr opStr
            (r.1, Event.getParamFromString paramStr pathStr keyStr opStr :: r.2)
          else ((Param.zero, none), [])
        match resolved.1.2 with
        | some err => (some err, resolved.2 ++ [Event.println [err]])
        | none =>
          let param := resolved.1.1
          let msg := Msg.submitProposal
            (NewMsgSubmitProposal title description proposalType fromAddr amount param)
          if viper.GenerateOnly then
            (env.PrintUnsignedStdTx [msg],
              resolved.2 ++ [Event.newMsg msg, Event.printUnsignedStdTx [msg]])
          else
            (env.SendOrPrintTx true [msg],
              resolved.2 ++ [Event.newMsg msg, Event.sendOrPrintTx true [msg]])

/-- The `RunE` body of `GetCmdDeposit`. -/
def GetCmdDeposit {DP : Type} (env : Env DP) (viper : Flags) : Option Error × List Event :=
  match env.GetFromAddress with
  | .error err => (some err, [])
  | .ok depositerAddr =>
    let proposalID := env.GetInt64 viper.flagProposalID
    match env.ParseCoins viper.flagDeposit with
    | .error err => (some err, [])
    | .ok amount =>
      let msg := Msg.deposit (NewMsgDeposit depositerAddr proposalID amount)
      match env.ValidateBasic msg with
      | some err => (some err, [Event.newMsg msg, Event.validateBasic msg])
      | none =>
        if viper.GenerateOnly then
          (env.PrintUnsignedStdTx [msg],
            [Event.newMsg msg, Event.validateBasic msg, Event.printUnsignedStdTx [msg]])
        else
          (env.SendOrPrintTx true [msg],
            [Event.newMsg msg, Event.validateBasic msg, Event.sendOrPrintTx true [msg]])

/-- The `RunE` body of `GetCmdVote`. -/
def GetCmdVote {DP : Type} (env : Env DP) (viper : Flags) : Option Error × List Event :=
  match env.GetFromAddress with
  | .error err => (some err, [])
  | .ok voterAddr =>
    let proposalID := env.GetInt64 viper.flagProposalID
    let option := viper.flagOption
    match env.VoteOptionFromString option with
    | .error err => (some err, [])
    | .ok byteVoteOption =>
      let m := NewMsgVote voterAddr proposalID byteVoteOption
      let msg := Msg.vote m
      match env.ValidateBasic msg with
      | some err => (some err, [Event.newMsg msg, Event.validateBasic msg])
      | none =>
        if viper.GenerateOnly then
          (env.PrintUnsignedStdTx [msg],
            [Event.newMsg msg, Event.validateBasic msg,
              Event.printfVote voterAddr m.ProposalID m.Option, Event.printUnsignedStdTx [msg]])
        else
          (env.SendOrPrintTx true [msg],
            [Event.newMsg msg, Event.validateBasic msg,
              Event.printfVote voterAddr m.ProposalID m.Option, Event.sendOrPrintTx true [msg]])

/-! ## Trace predicates -/

/-- No event of the trace hands a message to the signer/broadcaster. -/
def noSubmit (tr : List Event) : Bool := tr.all fun e => !e.isSubmit

/-- No event of the trace reads a file. -/
def noReadFile (tr : List Event) : Bool := tr.all fun e => !e.isReadFile

/-- No event of the trace constructs a message. -/
def noNewMsg (tr : List Event) : Bool := tr.all fun e => !e.isNewMsg

/-- The trace contains a call of the parameter resolver. -/
def callsResolver (tr : List Event) : Bool := tr.any Event.isGetParamFromString

/-- The hand-over that ends every command: `PrintUnsignedStdTx` when
`cliCtx.GenerateOnly` is set, else `SendOrPrintTx` with `PrintResponse` set. -/
def submitEvent (generateOnly : Bool) (m : Msg) : Event :=
  if generateOnly then Event.printUnsignedStdTx [m] else Event.sendOrPrintTx true [m]

/-- Every message handed to the signer/broadcaster in the trace was, earlier in
the trace, the subject of a `ValidateBasic` call that returned nil.  `seen`
holds the messages validated so far. -/
def submitsOnlyValidated {DP : Type} (env : Env DP) : List Msg → List Event → Bool
  | _, [] => true
  | seen, Event.validateBasic m :: tr =>
    submitsOnlyValidated env (if env.ValidateBasic m = none then m :: seen else seen) tr
  | seen, Event.printUnsignedStdTx msgs :: tr =>
    msgs.all (fun m => decide (m ∈ seen)) && submitsOnlyValidated env seen tr
  | seen, Event.sendOrPrintTx _ msgs :: tr =>
    msgs.all (fun m => decide (m ∈ seen)) && submitsOnlyValidated env seen tr
  | seen, _ :: tr => submitsOnlyValidated env seen tr

/-! ## A concrete environment

One fixed instance of `Env`, used to run the command bodies on concrete flag
values.  The deposit procedure record is carried as its JSON text. -/

/-- The decimal value of a string of digits, `none` when a character is not a digit. -/
def decimalValue : List Char → Nat → Option Nat
  | [], acc => some acc
  | c :: cs, acc => if c.isDigit then decimalValue cs (10 * acc + (c.toNat - 48)) else none

/-- A reading of `viper.GetInt64` on a flag stored as text, for plain decimal
numerals: the value of a string of digits, optionally preceded by a minus sign,
that fits an `int64`.  Every other text reads as `0`, as viper does for a text
it cannot convert (the conversion error is discarded).  Go's further integer
spellings (a plus sign, base prefixes, underscores) are not covered. -/
def sampleGetInt64 (s : String) : Int :=
  match s.data with
  | [] => 0
  | '-' :: ds =>
    match ds, decimalValue ds 0 with
    | _ :: _, some n => if n ≤ 2 ^ 63 then -(n : Int) else 0
    | _, _ => 0
  | ds =>
    match decimalValue ds 0 with
    | some n => if n < 2 ^ 63 then (n : Int) else 0
    | none => 0

/-- The inline parameter document of the spec's round-trip example. -/
def sampleParamJSON : String := "\x7b\"key\":\"k\",\"value\":\"v\",\"op\":\"update\"\x7d"

/-- The deposit procedure record of the sample snapshot, as JSON text. -/
def sampleDepositProcedure : String :=
  "\x7b\"min_deposit\":[\x7b\"denom\":\"iris\",\"amount\":\"10\"\x7d],\"max_deposit_period\":10\x7d"

/-- The text of the sample snapshot file. -/
def sampleSnapshot : String := "\x7b\"gov\":\x7b\"deposit_procedure\":" ++ sampleDepositProcedure ++ "\x7d\x7d"

/-- Modelled from the spec: `ValidateBasic` of the three messages, declared in
`modules/gov`: the proposal id of a deposit or a vote must be non-negative
(`InvalidProposalID`); the vote option is one of the four named values by
construction. -/
def sampleValidateBasic : Msg → Option Error
  | .submitProposal _ => none
  | .deposit m => if m.ProposalID < 0 then some "InvalidProposalID" else none
  | .vote m => if m.ProposalID < 0 then some "InvalidProposalID" else none

/-- Modelled from the spec: `gov.ProposalTypeFromString`, declared in
`modules/gov`: a case-sensitive match against the three kind names. -/
def sampleProposalTypeFromString (s : String) : Except Error ProposalKind :=
  if s = "Text" then .ok .Text
  else if s = "ParameterChange" then .ok .ParameterChange
  else if s = "SoftwareUpgrade" then .ok .SoftwareUpgrade
  else .error "UnknownProposalKind"

/-- Modelled from the spec: `gov.VoteOptionFromString`, declared in
`modules/gov`: a match against the four option names. -/
def sampleVoteOptionFromString (s : String) : Except Error VoteOption :=
  if s = "Yes" then .ok .Yes
  else if s = "No" then .ok .No
  else if s = "NoWithVeto" then .ok .NoWithVeto
  else if s = "Abstain" then .ok .Abstain
  else .error "InvalidVoteOption"

/-- A node whose home directory is `/home/iris`: `node0` has a well-formed
snapshot, `node1` has a snapshot file that is not JSON, no other file exists.
The JSON decoders know the two sample documents and reject every other text;
the signer/broadcaster accepts whatever it is given. -/
def sampleEnv : Env String where
  GetFromAddress := .ok "faa1proposer"
  ParseCoins := fun s =>
    if s = "100uiris" then .ok [⟨"uiris", 100⟩] else .error "InvalidAmount"
  ProposalTypeFromString := sampleProposalTypeFromString
  VoteOptionFromString := sampleVoteOptionFromString
  GetInt64 := sampleGetInt64
  jsonUnmarshal := fun s param =>
    if s = sampleParamJSON then (⟨"k", "v", "update"⟩, none)
    else (param, some "unexpected end of JSON input")
  ExpandEnv := fun s => if s = "$HOME" then "/home/iris" else s
  pathJoin := fun elems => "/".intercalate (elems.filter fun e => e ≠ "")
  ReadFile := fun path =>
    if path = "/home/iris/node0/config/params.json" then .ok sampleSnapshot
    else if path = "/home/iris/node1/config/params.json" then .ok "not a snapshot"
    else .error "no such file or directory"
  cdcUnmarshalJSON := fun bytes =>
    if bytes = sampleSnapshot then .ok ⟨⟨sampleDepositProcedure⟩⟩
    else .error "MalformedSnapshot"
  jsonMarshal := fun dp => (dp, none)
  jsonMarshalIndent := fun param _ _ =>
    ("Key=" ++ param.Key ++ " Value=" ++ param.Value ++ " Op=" ++ param.Op, none)
  ValidateBasic := sampleValidateBasic
  PrintUnsignedStdTx := fun _ => none
  SendOrPrintTx := fun _ _ => none

end Irishub

namespace Irishub

/-! ## Lemmas on the resolver -/

/-- The resolver in file mode, when the snapshot is read and decoded. -/
theorem GetParamFromString_file_ok {DP : Type} (env : Env DP) (pathStr keyStr opStr bytes : String)
    (d : ParameterDoc DP)
    (hread : env.ReadFile (snapshotPath env pathStr) = .ok bytes)
    (hdec : env.cdcUnmarshalJSON bytes = .ok d) :
    (GetParamFromString env "" pathStr keyStr opStr).1 =
      (⟨keyStr,
        if keyStr = "Gov/gov/depositProcedure" then (env.jsonMarshal d.Govparams.DepositProcedure).1
        else "",
        opStr⟩, none) := by
  simp [GetParamFromString, hread, hdec]

/-- The resolver in file mode, when the snapshot cannot be read. -/
theorem GetParamFromString_read_error {DP : Type} (env : Env DP) (pathStr keyStr opStr : String)
    (e : Error) (hread : env.ReadFile (snapshotPath env pathStr) = .error e) :
    GetParamFromString env "" pathStr keyStr opStr =
      ((Param.zero, some e),
        [Event.readFile (snapshotPath env pathStr),
          Event.println ["Open ", snapshotPath env pathStr], Event.println [e]]) := by
  simp [GetParamFromString, hread]

/-- The resolver in file mode, when the snapshot is read but does not decode. -/
theorem GetParamFromString_decode_error {DP : Type} (env : Env DP)
    (pathStr keyStr opStr bytes : String) (e : Error)
    (hread : env.ReadFile (snapshotPath env pathStr) = .ok bytes)
    (hdec : env.cdcUnmarshalJSON bytes = .error e) :
    GetParamFromString env "" pathStr keyStr opStr =
      ((Param.zero, some e),
        [Event.readFile (snapshotPath env pathStr),
          Event.println ["Open ", snapshotPath env pathStr], Event.println [e]]) := by
  simp [GetParamFromString, hread, hdec]

/-- The resolver in inline mode never returns an error: when `json.Unmarshal`
fails, the error is printed and the contents of `param` are returned with a nil
error. -/
theorem GetParamFromString_inline_error_dropped {DP : Type} (env : Env DP)
    (paramStr pathStr keyStr opStr : String) (p : Param) (e : Error)
    (hne : paramStr ≠ "") (hdec : env.jsonUnmarshal paramStr Param.zero = (p, some e)) :
    GetParamFromString env paramStr pathStr keyStr opStr = ((p, none), [Event.println [e]]) := by
  simp [GetParamFromString, hne, hdec]

/-- The submit-proposal command once the address, the deposit and the proposal
type are resolved to a kind other than `ParameterChange`. -/
theorem GetCmdSubmitProposal_other_kind {DP : Type} (env : Env DP) (viper : Flags)
    (a : AccAddress) (c : Coins) (k : ProposalKind)
    (ha : env.GetFromAddress = .ok a) (hc : env.ParseCoins viper.flagDeposit = .ok c)
    (hk : env.ProposalTypeFromString viper.flagProposalType = .ok k)
    (hne : k ≠ ProposalKind.ParameterChange) :
    GetCmdSubmitProposal env viper =
      if viper.GenerateOnly then
        (env.PrintUnsignedStdTx
            [Msg.submitProposal
              (NewMsgSubmitProposal viper.flagTitle viper.flagDescription k a c Param.zero)],
          [Event.newMsg (Msg.submitProposal
              (NewMsgSubmitProposal viper.flagTitle viper.flagDescription k a c Param.zero)),
            Event.printUnsignedStdTx [Msg.submitProposal
              (NewMsgSubmitProposal viper.flagTitle viper.flagDescription k a c Param.zero)]])
      else
        (env.SendOrPrintTx true
            [Msg.submitProposal
              (NewMsgSubmitProposal viper.flagTitle viper.flagDescription k a c Param.zero)],
          [Event.newMsg (Msg.submitProposal
              (NewMsgSubmitProposal viper.flagTitle viper.flagDescription k a c Param.zero)),
            Event.sendOrPrintTx true [Msg.submitProposal
              (NewMsgSubmitProposal viper.flagTitle viper.flagDescription k a c Param.zero)]]) := by
  simp [GetCmdSubmitProposal, ha, hc, hk, hne]

/-- The submit-proposal command once the address, the deposit and the proposal
type `ParameterChange` are resolved and the resolver returned an error. -/
theorem GetCmdSubmitProposal_resolver_error {DP : Type} (env : Env DP) (viper : Flags)
    (a : AccAddress) (c : Coins) (p : Param) (e : Error) (tr : List Event)
    (ha : env.GetFromAddress = .ok a) (hc : env.ParseCoins viper.flagDeposit = .ok c)
    (hk : env.ProposalTypeFromString viper.flagProposalType = .ok ProposalKind.ParameterChange)
    (hr : GetParamFromString env viper.flagParam viper.flagPath viper.flagKey viper.flagOp =
      ((p, some e), tr)) :
    GetCmdSubmitProposal env viper =
      (some e,
        Event.getParamFromString viper.flagParam viper.flagPath viper.flagKey viper.flagOp ::
          tr ++ [Event.println [e]]) := by
  simp [GetCmdSubmitProposal, ha, hc, hk, hr]

/-- The submit-proposal command once the address, the deposit and the proposal
type `ParameterChange` are resolved and the resolver returned a nil error. -/
theorem GetCmdSubmitProposal_resolver_ok {DP : Type} (env : Env DP) (viper : Flags)
    (a : AccAddress) (c : Coins) (p : Param) (tr : List Event)
    (ha : env.GetFromAddress = .ok a) (hc : env.ParseCoins viper.flagDeposit = .ok c)
    (hk : env.ProposalTypeFromString viper.flagProposalType = .ok ProposalKind.ParameterChange)
    (hr : GetParamFromString env viper.flagParam viper.flagPath viper.flagKey viper.flagOp =
      ((p, none), tr)) :
    GetCmdSubmitProposal env viper =
      if viper.GenerateOnly then
        (env.PrintUnsignedStdTx
            [Msg.submitProposal (NewMsgSubmitProposal viper.flagTitle viper.flagDescription
              ProposalKind.ParameterChange a c p)],
          Event.getParamFromString viper.flagParam viper.flagPath viper.flagKey viper.flagOp ::
            tr ++
            [Event.newMsg (Msg.submitProposal (NewMsgSubmitProposal viper.flagTitle
                viper.flagDescription ProposalKind.ParameterChange a c p)),
              Event.printUnsignedStdTx [Msg.submitProposal (NewMsgSubmitProposal viper.flagTitle
                viper.flagDescription ProposalKind.ParameterChange a c p)]])
      else
        (env.SendOrPrintTx true
            [Msg.submitProposal (NewMsgSubmitProposal viper.flagTitle viper.flagDescription
              ProposalKind.ParameterChange a c p)],
          Event.getParamFromString viper.flagParam viper.flagPath viper.flagKey viper.flagOp ::
            tr ++
            [Event.newMsg (Msg.submitProposal (NewMsgSubmitProposal viper.flagTitle
                viper.flagDescription ProposalKind.ParameterChange a c p)),
              Event.sendOrPrintTx true [Msg.submitProposal (NewMsgSubmitProposal viper.flagTitle
                viper.flagDescription ProposalKind.ParameterChange a c p)]]) := by
  simp [GetCmdSubmitProposal, ha, hc, hk, hr]

/-- The resolver reads a file only through `cmn.ReadFile`, never constructs a
message and never reaches the signer/broadcaster or calls itself. -/
theorem GetParamFromString_trace {DP : Type} (env : Env DP)
    (paramStr pathStr keyStr opStr : String) :
    noSubmit (GetParamFromString env paramStr pathStr keyStr opStr).2 = true ∧
    noNewMsg (GetParamFromString env paramStr pathStr keyStr opStr).2 = true ∧
    callsResolver (GetParamFromString env paramStr pathStr keyStr opStr).2 = false := by
  unfold GetParamFromString
  by_cases h : paramStr = ""
  · rcases hr : env.ReadFile (snapshotPath env pathStr) with e | b
    · simp [h, hr, noSubmit, noNewMsg, callsResolver, Event.isSubmit, Event.isNewMsg,
        Event.isGetParamFromString]
    · rcases hd : env.cdcUnmarshalJSON b with e | d <;>
        simp [h, hr, hd, noSubmit, noNewMsg, callsResolver, Event.isSubmit, Event.isNewMsg,
          Event.isGetParamFromString]
  · rcases hu : env.jsonUnmarshal paramStr Param.zero with ⟨p, _ | e⟩ <;>
      simp [h, hu, noSubmit, noNewMsg, callsResolver, Event.isSubmit, Event.isNewMsg,
        Event.isGetParamFromString]

/-! ## Inline mode -/

/-- C1: in inline mode (a non-empty `paramStr`), when `json.Unmarshal` decodes
`paramStr` to a `Param` `p` with a nil error, `GetParamFromString` returns
`(p, nil)` for every `pathStr`, `keyStr` and `opStr` and makes no call at all,
so no snapshot file is read; in particular, when the decoder reads the document
`{"key":"k","value":"v","op":"update"}` as `Param{Key:"k", Value:"v", Op:"update"}`,
that is exactly the `Param` returned. -/
theorem GetParamFromString_inline_ok {DP : Type} (env : Env DP)
    (paramStr pathStr keyStr opStr : String) (p : Param)
    (hne : paramStr ≠ "") (hdec : env.jsonUnmarshal paramStr Param.zero = (p, none)) :
    GetParamFromString env paramStr pathStr keyStr opStr = ((p, none), []) ∧
    noReadFile (GetParamFromString env paramStr pathStr keyStr opStr).2 = true ∧
    (env.jsonUnmarshal sampleParamJSON Param.zero = (⟨"k", "v", "update"⟩, none) →
      (GetParamFromString env sampleParamJSON pathStr keyStr opStr).1 =
        (⟨"k", "v", "update"⟩, none)) := by
  have hs : sampleParamJSON ≠ "" := by decide
  refine ⟨?_, ?_, ?_⟩
  · simp [GetParamFromString, hne, hdec]
  · simp [GetParamFromString, hne, hdec, noReadFile]
  · intro h
    simp [GetParamFromString, hs, h]

/-- C1, at the sample node: the spec's round-trip document resolves to
`Param{Key:"k", Value:"v", Op:"update"}` with no call made, whatever the path,
key and operation flags hold. -/
theorem GetParamFromString_inline_ok_witness :
    sampleParamJSON ≠ "" ∧
    sampleEnv.jsonUnmarshal sampleParamJSON Param.zero = (⟨"k", "v", "update"⟩, none) ∧
    GetParamFromString sampleEnv sampleParamJSON "node7" "Gov/gov/depositProcedure" "insert" =
      ((⟨"k", "v", "update"⟩, none), []) :=
  ⟨by decide, by decide,
    (GetParamFromString_inline_ok sampleEnv sampleParamJSON "node7" "Gov/gov/depositProcedure"
      "insert" ⟨"k", "v", "update"⟩ (by decide) (by decide)).1⟩

/-- C2: on the non-empty inline text `{`, which `json.Unmarshal` rejects, the
resolver prints the decode error and returns the untouched zero `Param`
together with a nil error. -/
theorem GetParamFromString_inline_malformed :
    sampleEnv.jsonUnmarshal "\x7b" Param.zero = (Param.zero, some "unexpected end of JSON input") ∧
    GetParamFromString sampleEnv "\x7b" "" "" "" =
      ((Param.zero, none), [Event.println ["unexpected end of JSON input"]]) := by
  decide

/-! ## File mode -/

/-- C3, as the code has it: in file mode with a snapshot that is read and
decoded, every key other than `Gov/gov/depositProcedure` yields a nil error and
the `Param` with that key, the caller's operation and an empty `Value`. -/
theorem GetParamFromString_unknown_key {DP : Type} (env : Env DP)
    (pathStr keyStr opStr bytes : String) (d : ParameterDoc DP)
    (hread : env.ReadFile (snapshotPath env pathStr) = .ok bytes)
    (hdec : env.cdcUnmarshalJSON bytes = .ok d)
    (hkey : keyStr ≠ "Gov/gov/depositProcedure") :
    (GetParamFromString env "" pathStr keyStr opStr).1 = (⟨keyStr, "", opStr⟩, none) := by
  rw [GetParamFromString_file_ok env pathStr keyStr opStr bytes d hread hdec]
  simp [hkey]

/-- C3, at the sample node: the key `Gov/gov/votingProcedure` against the
well-formed snapshot of `node0`. -/
theorem GetParamFromString_unknown_key_witness :
    sampleEnv.ReadFile (snapshotPath sampleEnv "node0") = .ok sampleSnapshot ∧
    sampleEnv.cdcUnmarshalJSON sampleSnapshot = .ok ⟨⟨sampleDepositProcedure⟩⟩ ∧
    (GetParamFromString sampleEnv "" "node0" "Gov/gov/votingProcedure" "update").1 =
      (⟨"Gov/gov/votingProcedure", "", "update"⟩, none) :=
  ⟨rfl, rfl,
    GetParamFromString_unknown_key sampleEnv "node0" "Gov/gov/votingProcedure" "update"
      sampleSnapshot ⟨⟨sampleDepositProcedure⟩⟩ rfl rfl (by decide)⟩

/-- C3 as stated fails: with an empty `paramStr`, the readable, well-formed
snapshot of `node0` and the unrecognized key `Gov/gov/unknown`, the resolver
returns a nil error and a `Param` whose `Value` is empty. -/
theorem GetParamFromString_unknown_key_no_error :
    (GetParamFromString sampleEnv "" "node0" "Gov/gov/unknown" "update").1.2 = none ∧
    (GetParamFromString sampleEnv "" "node0" "Gov/gov/unknown" "update").1.1.Value = "" := by
  decide

/-- C4: in file mode, when the file at
`path.Join(home, pathStr, "config/params.json")` is read and decodes to the
document `d`, the key `Gov/gov/depositProcedure` yields a nil error and the
`Param` with that key, the JSON serialization of `d.Govparams.DepositProcedure`
as `Value` and `opStr` as `Op`. -/
theorem GetParamFromString_depositProcedure {DP : Type} (env : Env DP)
    (pathStr opStr bytes : String) (d : ParameterDoc DP)
    (hread : env.ReadFile
      (env.pathJoin [env.ExpandEnv "$HOME", pathStr, "config/params.json"]) = .ok bytes)
    (hdec : env.cdcUnmarshalJSON bytes = .ok d) :
    (GetParamFromString env "" pathStr "Gov/gov/depositProcedure" opStr).1 =
      (⟨"Gov/gov/depositProcedure", (env.jsonMarshal d.Govparams.DepositProcedure).1, opStr⟩,
        none) := by
  rw [GetParamFromString_file_ok env pathStr "Gov/gov/depositProcedure" opStr bytes d hread hdec]
  simp

/-- C4, at the sample node: `node0` and the operation `update`. -/
theorem GetParamFromString_depositProcedure_witness :
    sampleEnv.pathJoin [sampleEnv.ExpandEnv "$HOME", "node0", "config/params.json"] =
      "/home/iris/node0/config/params.json" ∧
    (GetParamFromString sampleEnv "" "node0" "Gov/gov/depositProcedure" "update").1 =
      (⟨"Gov/gov/depositProcedure", sampleDepositProcedure, "update"⟩, none) :=
  ⟨by decide,
    GetParamFromString_depositProcedure sampleEnv "node0" "update" sampleSnapshot
      ⟨⟨sampleDepositProcedure⟩⟩ rfl rfl⟩

/-- C5: in file mode (`paramStr` empty), a failed read makes the resolver
return the read error, and a successful read followed by a failed decode makes
it return the decode error; in both cases the returned `Param` is the zero
`Param`, and a submit-proposal command that reached the resolver returns that
same error with no message constructed and nothing handed to the
signer/broadcaster. -/
theorem GetParamFromString_snapshot_failure {DP : Type} (env : Env DP) (viper : Flags)
    (e : Error) (hparam : viper.flagParam = "")
    (hfail : env.ReadFile (snapshotPath env viper.flagPath) = .error e ∨
      ∃ bytes, env.ReadFile (snapshotPath env viper.flagPath) = .ok bytes ∧
        env.cdcUnmarshalJSON bytes = .error e) :
    (GetParamFromString env "" viper.flagPath viper.flagKey viper.flagOp).1 =
      (Param.zero, some e) ∧
    ∀ a c, env.GetFromAddress = .ok a → env.ParseCoins viper.flagDeposit = .ok c →
      env.ProposalTypeFromString viper.flagProposalType = .ok ProposalKind.ParameterChange →
      (GetCmdSubmitProposal env viper).1 = some e ∧
      noNewMsg (GetCmdSubmitProposal env viper).2 = true ∧
      noSubmit (GetCmdSubmitProposal env viper).2 = true := by
  have hr : GetParamFromString env "" viper.flagPath viper.flagKey viper.flagOp =
      ((Param.zero, some e),
        [Event.readFile (snapshotPath env viper.flagPath),
          Event.println ["Open ", snapshotPath env viper.flagPath], Event.println [e]]) := by
    rcases hfail with h | ⟨bytes, h1, h2⟩
    · exact GetParamFromString_read_error env _ _ _ e h
    · exact GetParamFromString_decode_error env _ _ _ bytes e h1 h2
  refine ⟨by rw [hr], ?_⟩
  intro a c ha hc hk
  rw [GetCmdSubmitProposal_resolver_error env viper a c Param.zero e _ ha hc hk
    (by rw [hparam]; exact hr)]
  simp [noNewMsg, noSubmit, Event.isNewMsg, Event.isSubmit]

/-- C5, at the sample node: `node9` has no snapshot file and the snapshot file
of `node1` is not JSON; a parameter-change proposal pointing at either stops
with the read error, respectively the decode error. -/
theorem GetParamFromString_snapshot_failure_witness :
    (GetCmdSubmitProposal sampleEnv
      ⟨"t", "d", "ParameterChange", "100uiris", "", "node9", "Gov/gov/depositProcedure",
        "update", "", "", false⟩).1 = some "no such file or directory" ∧
    (GetCmdSubmitProposal sampleEnv
      ⟨"t", "d", "ParameterChange", "100uiris", "", "node1", "Gov/gov/depositProcedure",
        "update", "", "", false⟩).1 = some "MalformedSnapshot" :=
  ⟨((GetParamFromString_snapshot_failure sampleEnv
      ⟨"t", "d", "ParameterChange", "100uiris", "", "node9", "Gov/gov/depositProcedure",
        "update", "", "", false⟩
      "no such file or directory" rfl (Or.inl rfl)).2
    "faa1proposer" [⟨"uiris", 100⟩] rfl rfl rfl).1,
   ((GetParamFromString_snapshot_failure sampleEnv
      ⟨"t", "d", "ParameterChange", "100uiris", "", "node1", "Gov/gov/depositProcedure",
        "update", "", "", false⟩
      "MalformedSnapshot" rfl (Or.inr ⟨"not a snapshot", rfl, rfl⟩)).2
    "faa1proposer" [⟨"uiris", 100⟩] rfl rfl rfl).1⟩

/-- File mode at the sample node `node1`, whose snapshot file is not JSON: the
resolver returns the decode error and the zero `Param`. -/
theorem GetParamFromString_snapshot_malformed_sample :
    GetParamFromString sampleEnv "" "node1" "Gov/gov/depositProcedure" "update" =
      ((Param.zero, some "MalformedSnapshot"),
        [Event.readFile "/home/iris/node1/config/params.json",
          Event.println ["Open ", "/home/iris/node1/config/params.json"],
          Event.println ["MalformedSnapshot"]]) := by
  decide

/-- C10: in file mode with a snapshot that is read and decoded, the resolver
returns a nil error and a `Param` whose `Key` is `keyStr` and whose `Op` is
`opStr`, for every `keyStr` and `opStr`; for every `keyStr` that is not exactly
the string `Gov/gov/depositProcedure` the `Value` is the empty string. -/
theorem GetParamFromString_file_mode {DP : Type} (env : Env DP)
    (pathStr keyStr opStr bytes : String) (d : ParameterDoc DP)
    (hread : env.ReadFile (snapshotPath env pathStr) = .ok bytes)
    (hdec : env.cdcUnmarshalJSON bytes = .ok d) :
    (GetParamFromString env "" pathStr keyStr opStr).1.2 = none ∧
    (GetParamFromString env "" pathStr keyStr opStr).1.1.Key = keyStr ∧
    (GetParamFromString env "" pathStr keyStr opStr).1.1.Op = opStr ∧
    (keyStr ≠ "Gov/gov/depositProcedure" →
      (GetParamFromString env "" pathStr keyStr opStr).1.1.Value = "") := by
  rw [GetParamFromString_file_ok env pathStr keyStr opStr bytes d hread hdec]
  refine ⟨rfl, rfl, rfl, ?_⟩
  intro hkey
  simp [hkey]

/-- C10, at the sample node: a key that differs from the known one only in
letter case gets an empty `Value`. -/
theorem GetParamFromString_file_mode_witness :
    "gov/gov/depositprocedure" ≠ "Gov/gov/depositProcedure" ∧
    (GetParamFromString sampleEnv "" "node0" "gov/gov/depositprocedure" "update").1.2 = none ∧
    (GetParamFromString sampleEnv "" "node0" "gov/gov/depositprocedure" "update").1.1.Key =
      "gov/gov/depositprocedure" ∧
    (GetParamFromString sampleEnv "" "node0" "gov/gov/depositprocedure" "update").1.1.Op =
      "update" ∧
    (GetParamFromString sampleEnv "" "node0" "gov/gov/depositprocedure" "update").1.1.Value = "" :=
  have h := GetParamFromString_file_mode sampleEnv "node0" "gov/gov/depositprocedure" "update"
    sampleSnapshot ⟨⟨sampleDepositProcedure⟩⟩ rfl rfl
  ⟨by decide, h.1, h.2.1, h.2.2.1, h.2.2.2 (by decide)⟩

/-! ## The commands -/

/-- The deposit command hands a message to the signer/broadcaster only after
its `ValidateBasic` returned nil. -/
theorem GetCmdDeposit_submitsOnlyValidated {DP : Type} (env : Env DP) (viper : Flags) :
    submitsOnlyValidated env [] (GetCmdDeposit env viper).2 = true := by
  unfold GetCmdDeposit
  rcases env.GetFromAddress with e | a
  · simp [submitsOnlyValidated]
  · rcases env.ParseCoins viper.flagDeposit with e | c
    · simp [submitsOnlyValidated]
    · rcases hv : env.ValidateBasic
          (Msg.deposit (NewMsgDeposit a (env.GetInt64 viper.flagProposalID) c)) with _ | e
      · cases hg : viper.GenerateOnly <;> simp [hv, submitsOnlyValidated]
      · simp [hv, submitsOnlyValidated]

/-- The vote command hands a message to the signer/broadcaster only after its
`ValidateBasic` returned nil. -/
theorem GetCmdVote_submitsOnlyValidated {DP : Type} (env : Env DP) (viper : Flags) :
    submitsOnlyValidated env [] (GetCmdVote env viper).2 = true := by
  unfold GetCmdVote
  rcases ha : env.GetFromAddress with e | a
  · simp [submitsOnlyValidated]
  · rcases ho : env.VoteOptionFromString viper.flagOption with e | o
    · simp [ho, submitsOnlyValidated]
    · rcases hv : env.ValidateBasic
          (Msg.vote (NewMsgVote a (env.GetInt64 viper.flagProposalID) o)) with _ | e
      · cases hg : viper.GenerateOnly <;> simp [ho, hv, submitsOnlyValidated]
      · simp [ho, hv, submitsOnlyValidated]

/-- Each step of the submit-proposal command whose error the command sees
(address lookup, amount parsing, proposal-type classification, a resolver
error) ends the run with that error, before any message is built. -/
theorem GetCmdSubmitProposal_steps {DP : Type} (env : Env DP) (viper : Flags) :
    (∀ e, env.GetFromAddress = .error e → GetCmdSubmitProposal env viper = (some e, [])) ∧
    (∀ a e, env.GetFromAddress = .ok a → env.ParseCoins viper.flagDeposit = .error e →
      GetCmdSubmitProposal env viper = (some e, [])) ∧
    (∀ a c e, env.GetFromAddress = .ok a → env.ParseCoins viper.flagDeposit = .ok c →
      env.ProposalTypeFromString viper.flagProposalType = .error e →
      GetCmdSubmitProposal env viper = (some e, [])) ∧
    (∀ a c p e, env.GetFromAddress = .ok a → env.ParseCoins viper.flagDeposit = .ok c →
      env.ProposalTypeFromString viper.flagProposalType = .ok ProposalKind.ParameterChange →
      (GetParamFromString env viper.flagParam viper.flagPath viper.flagKey viper.flagOp).1 =
        (p, some e) →
      (GetCmdSubmitProposal env viper).1 = some e ∧
      noNewMsg (GetCmdSubmitProposal env viper).2 = true ∧
      noSubmit (GetCmdSubmitProposal env viper).2 = true) := by
  refine ⟨?_, ?_, ?_, ?_⟩
  · intro e ha
    simp [GetCmdSubmitProposal, ha]
  · intro a e ha hc
    simp [GetCmdSubmitProposal, ha, hc]
  · intro a c e ha hc hk
    simp [GetCmdSubmitProposal, ha, hc, hk]
  · intro a c p e ha hc hk hr
    have htr := GetParamFromString_trace env viper.flagParam viper.flagPath viper.flagKey
      viper.flagOp
    rcases hg : GetParamFromString env viper.flagParam viper.flagPath viper.flagKey
      viper.flagOp with ⟨res, tr⟩
    rw [hg] at hr htr
    simp only at hr htr
    subst hr
    rw [GetCmdSubmitProposal_resolver_error env viper a c p e tr ha hc hk hg]
    have h1 := htr.1
    have h2 := htr.2.1
    simp only [noSubmit, noNewMsg, List.all_eq_true] at h1 h2
    simp only [noNewMsg, noSubmit, List.all_eq_true, List.mem_cons, List.mem_append,
      List.mem_singleton]
    refine ⟨trivial, ?_, ?_⟩
    · rintro x ((rfl | hx) | rfl | hx)
      · rfl
      · exact h2 x hx
      · rfl
      · cases hx
    · rintro x ((rfl | hx) | rfl | hx)
      · rfl
      · exact h1 x hx
      · rfl
      · cases hx

/-- Each step of the deposit command (address lookup, amount parsing,
`ValidateBasic`) that fails ends the run with that error, before any hand-over. -/
theorem GetCmdDeposit_steps {DP : Type} (env : Env DP) (viper : Flags) :
    (∀ e, env.GetFromAddress = .error e → GetCmdDeposit env viper = (some e, [])) ∧
    (∀ a e, env.GetFromAddress = .ok a → env.ParseCoins viper.flagDeposit = .error e →
      GetCmdDeposit env viper = (some e, [])) ∧
    (∀ a c e, env.GetFromAddress = .ok a → env.ParseCoins viper.flagDeposit = .ok c →
      env.ValidateBasic
        (Msg.deposit (NewMsgDeposit a (env.GetInt64 viper.flagProposalID) c)) = some e →
      (GetCmdDeposit env viper).1 = some e ∧ noSubmit (GetCmdDeposit env viper).2 = true) := by
  refine ⟨?_, ?_, ?_⟩
  · intro e ha
    simp [GetCmdDeposit, ha]
  · intro a e ha hc
    simp [GetCmdDeposit, ha, hc]
  · intro a c e ha hc hv
    simp [GetCmdDeposit, ha, hc, hv, noSubmit, Event.isSubmit]

/-- Each step of the vote command (address lookup, vote-option classification,
`ValidateBasic`) that fails ends the run with that error, before any hand-over. -/
theorem GetCmdVote_steps {DP : Type} (env : Env DP) (viper : Flags) :
    (∀ e, env.GetFromAddress = .error e → GetCmdVote env viper = (some e, [])) ∧
    (∀ a e, env.GetFromAddress = .ok a → env.VoteOptionFromString viper.flagOption = .error e →
      GetCmdVote env viper = (some e, [])) ∧
    (∀ a o e, env.GetFromAddress = .ok a → env.VoteOptionFromString viper.flagOption = .ok o →
      env.ValidateBasic
        (Msg.vote (NewMsgVote a (env.GetInt64 viper.flagProposalID) o)) = some e →
      (GetCmdVote env viper).1 = some e ∧ noSubmit (GetCmdVote env viper).2 = true) := by
  refine ⟨?_, ?_, ?_⟩
  · intro e ha
    simp [GetCmdVote, ha]
  · intro a e ha ho
    simp [GetCmdVote, ha, ho]
  · intro a o e ha ho hv
    simp [GetCmdVote, ha, ho, hv, noSubmit, Event.isSubmit]

/-- C6: the submit-proposal command, on a text proposal with a deposit of
`100uiris`, constructs the message and hands it to `SendOrPrintTx` with no
`ValidateBasic` call anywhere in the run. -/
theorem GetCmdSubmitProposal_unvalidated :
    GetCmdSubmitProposal sampleEnv
        ⟨"title", "description", "Text", "100uiris", "", "", "", "", "", "", false⟩ =
      (none,
        [Event.newMsg (Msg.submitProposal
            ⟨"title", "description", ProposalKind.Text, "faa1proposer", [⟨"uiris", 100⟩],
              Param.zero⟩),
          Event.sendOrPrintTx true [Msg.submitProposal
            ⟨"title", "description", ProposalKind.Text, "faa1proposer", [⟨"uiris", 100⟩],
              Param.zero⟩]]) ∧
    submitsOnlyValidated sampleEnv []
      (GetCmdSubmitProposal sampleEnv
        ⟨"title", "description", "Text", "100uiris", "", "", "", "", "", "", false⟩).2 = false := by
  decide

/-- C9: the submit-proposal command, on a parameter-change proposal whose
inline parameter text `{` fails to decode, prints the decode error, returns a
nil error and hands a message carrying the zero `Param` to `SendOrPrintTx`. -/
theorem GetCmdSubmitProposal_decode_error_dropped :
    GetCmdSubmitProposal sampleEnv
        ⟨"title", "description", "ParameterChange", "100uiris", "\x7b", "", "", "", "", "",
          false⟩ =
      (none,
        [Event.getParamFromString "\x7b" "" "" "",
          Event.println ["unexpected end of JSON input"],
          Event.newMsg (Msg.submitProposal
            ⟨"title", "description", ProposalKind.ParameterChange, "faa1proposer",
              [⟨"uiris", 100⟩], Param.zero⟩),
          Event.sendOrPrintTx true [Msg.submitProposal
            ⟨"title", "description", ProposalKind.ParameterChange, "faa1proposer",
              [⟨"uiris", 100⟩], Param.zero⟩]]) ∧
    noSubmit (GetCmdSubmitProposal sampleEnv
        ⟨"title", "description", "ParameterChange", "100uiris", "\x7b", "", "", "", "", "",
          false⟩).2 = false := by
  decide

/-- C8: once the address, the deposit and the proposal type are resolved to a
kind `k`, the submit-proposal command calls `GetParamFromString` if and only if
`k` is `ParameterChange`.  For `Text` and `SoftwareUpgrade` the run consists of
building the message with the zero `Param` and handing it over, whatever the
param, path, key and op flags hold, and no file is read.  For
`ParameterChange` with a resolver result `(p, nil)` the run is the resolver
call, the resolver's own calls, then building the message with `p` and handing
it over. -/
theorem GetCmdSubmitProposal_resolver_iff {DP : Type} (env : Env DP) (viper : Flags)
    (a : AccAddress) (c : Coins) (k : ProposalKind)
    (ha : env.GetFromAddress = .ok a) (hc : env.ParseCoins viper.flagDeposit = .ok c)
    (hk : env.ProposalTypeFromString viper.flagProposalType = .ok k) :
    (callsResolver (GetCmdSubmitProposal env viper).2 = true ↔
      k = ProposalKind.ParameterChange) ∧
    (k = ProposalKind.Text ∨ k = ProposalKind.SoftwareUpgrade →
      (GetCmdSubmitProposal env viper).2 =
        [Event.newMsg (Msg.submitProposal
            (NewMsgSubmitProposal viper.flagTitle viper.flagDescription k a c Param.zero)),
          submitEvent viper.GenerateOnly (Msg.submitProposal
            (NewMsgSubmitProposal viper.flagTitle viper.flagDescription k a c Param.zero))] ∧
      noReadFile (GetCmdSubmitProposal env viper).2 = true) ∧
    (k = ProposalKind.ParameterChange → ∀ p tr,
      GetParamFromString env viper.flagParam viper.flagPath viper.flagKey viper.flagOp =
        ((p, none), tr) →
      (GetCmdSubmitProposal env viper).2 =
        Event.getParamFromString viper.flagParam viper.flagPath viper.flagKey viper.flagOp ::
          tr ++
          [Event.newMsg (Msg.submitProposal
              (NewMsgSubmitProposal viper.flagTitle viper.flagDescription k a c p)),
            submitEvent viper.GenerateOnly (Msg.submitProposal
              (NewMsgSubmitProposal viper.flagTitle viper.flagDescription k a c p))]) := by
  have hother : k ≠ ProposalKind.ParameterChange →
      (GetCmdSubmitProposal env viper).2 =
        [Event.newMsg (Msg.submitProposal
            (NewMsgSubmitProposal viper.flagTitle viper.flagDescription k a c Param.zero)),
          submitEvent viper.GenerateOnly (Msg.submitProposal
            (NewMsgSubmitProposal viper.flagTitle viper.flagDescription k a c Param.zero))] := by
    intro hne
    rw [GetCmdSubmitProposal_other_kind env viper a c k ha hc hk hne]
    cases viper.GenerateOnly <;> simp [submitEvent]
  refine ⟨?_, ?_, ?_⟩
  · by_cases hpc : k = ProposalKind.ParameterChange
    · subst hpc
      have hres := (GetParamFromString_trace env viper.flagParam viper.flagPath viper.flagKey
        viper.flagOp).2.2
      rcases hr : GetParamFromString env viper.flagParam viper.flagPath viper.flagKey
        viper.flagOp with ⟨⟨p, _ | e⟩, tr⟩
      · rw [GetCmdSubmitProposal_resolver_ok env viper a c p tr ha hc hk hr]
        cases viper.GenerateOnly <;> simp [callsResolver, Event.isGetParamFromString]
      · rw [GetCmdSubmitProposal_resolver_error env viper a c p e tr ha hc hk hr]
        simp [callsResolver, Event.isGetParamFromString]
    · rw [hother hpc]
      cases viper.GenerateOnly <;>
        simp [hpc, callsResolver, submitEvent, Event.isGetParamFromString]
  · intro hk2
    have hne : k ≠ ProposalKind.ParameterChange := by
      rcases hk2 with h | h <;> rw [h] <;> decide
    rw [hother hne]
    refine ⟨rfl, ?_⟩
    cases viper.GenerateOnly <;> simp [noReadFile, submitEvent, Event.isReadFile]
  · intro hpc p tr hr
    subst hpc
    rw [GetCmdSubmitProposal_resolver_ok env viper a c p tr ha hc hk hr]
    cases viper.GenerateOnly <;> simp [submitEvent]

/-- C8, at the sample node: a text proposal whose param, path, key and op flags
are all set is built with the zero `Param` and no resolver call, and a
parameter-change proposal with the same flags carries the `Param` decoded from
the param flag. -/
theorem GetCmdSubmitProposal_resolver_iff_witness :
    (GetCmdSubmitProposal sampleEnv
        ⟨"t", "d", "Text", "100uiris", sampleParamJSON, "node0", "Gov/gov/depositProcedure",
          "update", "", "", false⟩).2 =
      [Event.newMsg (Msg.submitProposal
          ⟨"t", "d", ProposalKind.Text, "faa1proposer", [⟨"uiris", 100⟩], Param.zero⟩),
        Event.sendOrPrintTx true [Msg.submitProposal
          ⟨"t", "d", ProposalKind.Text, "faa1proposer", [⟨"uiris", 100⟩], Param.zero⟩]] ∧
    (GetCmdSubmitProposal sampleEnv
        ⟨"t", "d", "ParameterChange", "100uiris", sampleParamJSON, "node0",
          "Gov/gov/depositProcedure", "update", "", "", false⟩).2 =
      [Event.getParamFromString sampleParamJSON "node0" "Gov/gov/depositProcedure" "update",
        Event.newMsg (Msg.submitProposal
          ⟨"t", "d", ProposalKind.ParameterChange, "faa1proposer", [⟨"uiris", 100⟩],
            ⟨"k", "v", "update"⟩⟩),
        Event.sendOrPrintTx true [Msg.submitProposal
          ⟨"t", "d", ProposalKind.ParameterChange, "faa1proposer", [⟨"uiris", 100⟩],
            ⟨"k", "v", "update"⟩⟩]] :=
  ⟨((GetCmdSubmitProposal_resolver_iff sampleEnv
      ⟨"t", "d", "Text", "100uiris", sampleParamJSON, "node0", "Gov/gov/depositProcedure",
        "update", "", "", false⟩
      "faa1proposer" [⟨"uiris", 100⟩] ProposalKind.Text rfl rfl rfl).2.1 (Or.inl rfl)).1,
   (GetCmdSubmitProposal_resolver_iff sampleEnv
      ⟨"t", "d", "ParameterChange", "100uiris", sampleParamJSON, "node0",
        "Gov/gov/depositProcedure", "update", "", "", false⟩
      "faa1proposer" [⟨"uiris", 100⟩] ProposalKind.ParameterChange rfl rfl rfl).2.2 rfl
      ⟨"k", "v", "update"⟩ [] rfl⟩

/-- C7, as the code has it: the deposit and vote commands take as proposal id
whatever `viper.GetInt64` gives for the flag.  When that value is negative and
`ValidateBasic` rejects negative proposal ids, the command returns an error and
nothing is handed to the signer/broadcaster.  When the address and the amount
(or the vote option) resolve and `ValidateBasic` accepts the message built with
that id, the message is handed over; the flag text itself is never checked. -/
theorem GetCmdDeposit_GetCmdVote_proposalID {DP : Type} (env : Env DP) (viper : Flags) :
    ((∀ m : MsgDeposit, m.ProposalID < 0 → (env.ValidateBasic (Msg.deposit m)).isSome = true) →
      env.GetInt64 viper.flagProposalID < 0 →
      (GetCmdDeposit env viper).1.isSome = true ∧ noSubmit (GetCmdDeposit env viper).2 = true) ∧
    ((∀ m : MsgVote, m.ProposalID < 0 → (env.ValidateBasic (Msg.vote m)).isSome = true) →
      env.GetInt64 viper.flagProposalID < 0 →
      (GetCmdVote env viper).1.isSome = true ∧ noSubmit (GetCmdVote env viper).2 = true) ∧
    (∀ a c, env.GetFromAddress = .ok a → env.ParseCoins viper.flagDeposit = .ok c →
      env.ValidateBasic
        (Msg.deposit (NewMsgDeposit a (env.GetInt64 viper.flagProposalID) c)) = none →
      (GetCmdDeposit env viper).2 =
        [Event.newMsg (Msg.deposit (NewMsgDeposit a (env.GetInt64 viper.flagProposalID) c)),
          Event.validateBasic
            (Msg.deposit (NewMsgDeposit a (env.GetInt64 viper.flagProposalID) c)),
          submitEvent viper.GenerateOnly
            (Msg.deposit (NewMsgDeposit a (env.GetInt64 viper.flagProposalID) c))]) ∧
    (∀ a o, env.GetFromAddress = .ok a → env.VoteOptionFromString viper.flagOption = .ok o →
      env.ValidateBasic
        (Msg.vote (NewMsgVote a (env.GetInt64 viper.flagProposalID) o)) = none →
      (GetCmdVote env viper).2 =
        [Event.newMsg (Msg.vote (NewMsgVote a (env.GetInt64 viper.flagProposalID) o)),
          Event.validateBasic (Msg.vote (NewMsgVote a (env.GetInt64 viper.flagProposalID) o)),
          Event.printfVote a (env.GetInt64 viper.flagProposalID) o,
          submitEvent viper.GenerateOnly
            (Msg.vote (NewMsgVote a (env.GetInt64 viper.flagProposalID) o))]) := by
  refine ⟨?_, ?_, ?_, ?_⟩
  · intro hval hid
    unfold GetCmdDeposit
    rcases ha : env.GetFromAddress with e | a
    · simp [noSubmit]
    · rcases hc : env.ParseCoins viper.flagDeposit with e | c
      · simp [hc, noSubmit]
      · have h := hval (NewMsgDeposit a (env.GetInt64 viper.flagProposalID) c) hid
        rcases hv : env.ValidateBasic
            (Msg.deposit (NewMsgDeposit a (env.GetInt64 viper.flagProposalID) c)) with _ | e
        · rw [hv] at h
          simp at h
        · simp [hc, hv, noSubmit, Event.isSubmit]
  · intro hval hid
    unfold GetCmdVote
    rcases ha : env.GetFromAddress with e | a
    · simp [noSubmit]
    · rcases ho : env.VoteOptionFromString viper.flagOption with e | o
      · simp [ho, noSubmit]
      · have h := hval (NewMsgVote a (env.GetInt64 viper.flagProposalID) o) hid
        rcases hv : env.ValidateBasic
            (Msg.vote (NewMsgVote a (env.GetInt64 viper.flagProposalID) o)) with _ | e
        · rw [hv] at h
          simp at h
        · simp [ho, hv, noSubmit, Event.isSubmit]
  · intro a c ha hc hv
    cases hg : viper.GenerateOnly <;>
      simp [GetCmdDeposit, ha, hc, hv, hg, submitEvent]
  · intro a o ha ho hv
    simp only [NewMsgVote] at hv
    cases hg : viper.GenerateOnly <;>
      simp [GetCmdVote, ha, ho, hv, hg, submitEvent, NewMsgVote]

/-- C7, at the sample node: the proposal id `-5` stops both commands with an
error before any hand-over. -/
theorem GetCmdDeposit_GetCmdVote_proposalID_witness :
    sampleEnv.GetInt64 "-5" = -5 ∧
    ((GetCmdDeposit sampleEnv
        ⟨"", "", "", "100uiris", "", "", "", "", "-5", "", false⟩).1.isSome = true ∧
      noSubmit (GetCmdDeposit sampleEnv
        ⟨"", "", "", "100uiris", "", "", "", "", "-5", "", false⟩).2 = true) ∧
    ((GetCmdVote sampleEnv
        ⟨"", "", "", "", "", "", "", "", "-5", "Yes", false⟩).1.isSome = true ∧
      noSubmit (GetCmdVote sampleEnv
        ⟨"", "", "", "", "", "", "", "", "-5", "Yes", false⟩).2 = true) :=
  ⟨by decide,
    (GetCmdDeposit_GetCmdVote_proposalID sampleEnv
      ⟨"", "", "", "100uiris", "", "", "", "", "-5", "", false⟩).1
      (fun m h => by simp [sampleEnv, sampleValidateBasic, h]) (by decide),
    (GetCmdDeposit_GetCmdVote_proposalID sampleEnv
      ⟨"", "", "", "", "", "", "", "", "-5", "Yes", false⟩).2.1
      (fun m h => by simp [sampleEnv, sampleValidateBasic, h]) (by decide)⟩

/-- C7 as stated fails: with the proposal-id flag `abc`, which is not a
numeral, `viper.GetInt64` gives `0`, `ValidateBasic` accepts the message and
both the deposit and the vote command hand a message with proposal id `0` to
`SendOrPrintTx` and return its nil error. -/
theorem GetCmdDeposit_GetCmdVote_non_numeric_id :
    sampleEnv.GetInt64 "abc" = 0 ∧
    GetCmdDeposit sampleEnv ⟨"", "", "", "100uiris", "", "", "", "", "abc", "", false⟩ =
      (none,
        [Event.newMsg (Msg.deposit ⟨"faa1proposer", 0, [⟨"uiris", 100⟩]⟩),
          Event.validateBasic (Msg.deposit ⟨"faa1proposer", 0, [⟨"uiris", 100⟩]⟩),
          Event.sendOrPrintTx true [Msg.deposit ⟨"faa1proposer", 0, [⟨"uiris", 100⟩]⟩]]) ∧
    GetCmdVote sampleEnv ⟨"", "", "", "", "", "", "", "", "abc", "Yes", false⟩ =
      (none,
        [Event.newMsg (Msg.vote ⟨"faa1proposer", 0, VoteOption.Yes⟩),
          Event.validateBasic (Msg.vote ⟨"faa1proposer", 0, VoteOption.Yes⟩),
          Event.printfVote "faa1proposer" 0 VoteOption.Yes,
          Event.sendOrPrintTx true [Msg.vote ⟨"faa1proposer", 0, VoteOption.Yes⟩]]) := by
  decide

end Irishub
